import Mathlib

/-!
Shallow embedding of the `MaskedAttendance` FHEVM contract
(src/action/contracts, contract body embedded in the repository next to
`test/MaskedAttendance.test.ts`).

Addresses are modelled as naturals, `block.timestamp` as a natural passed
to each call, and `msg.sender` as an explicit `sender` argument.  Encrypted
values (`euint8` / `euint32`) are modelled by their plaintext together with
the access-control list accumulated through `FHE.allow` / `FHE.allowThis`;
every homomorphic operation yields a fresh ciphertext identity, i.e. an
empty ACL.  A storage slot holding a ciphertext is `Option Ct`, where
`none` is the never-written (handle-zero) slot; the FHE runtime's exact
behaviour when an uninitialized handle is used as an operand is external
to this repository, so `fheAdd32` simply propagates `none`.
Reverting calls are `Except.error msg` carrying the `require` reason.
-/

namespace MaskedAttendance

abbrev Addr := Nat

/-- Pointwise-updated function, modelling a Solidity `mapping` write. -/
def upd {α β : Type} [DecidableEq α] (f : α → β) (k : α) (v : β) : α → β :=
  fun x => if x = k then v else f x

/-- A principal that may appear on a ciphertext's ACL: the contract itself
(`FHE.allowThis`) or an externally owned account (`FHE.allow`). -/
inductive Principal where
  | contractSelf : Principal
  | user : Addr → Principal
deriving DecidableEq, Repr

/-- A ciphertext: its plaintext value together with the set of principals
currently allowed to decrypt it. -/
structure Ct where
  val : Nat
  acl : List Principal
deriving DecidableEq, Repr

/-- Model of `FHE.allow` / `FHE.allowThis` on a ciphertext: ACL insertion (idempotent). -/
def aclGrant (p : Principal) (c : Ct) : Ct :=
  if c.acl.contains p then c else { c with acl := c.acl ++ [p] }

/-- Grant on a storage slot; a never-written slot stays unallocated. -/
def fheAllow (o : Option Ct) (p : Principal) : Option Ct :=
  o.map (aclGrant p)

/-- Model of `FHE.asEuint32`: trivial encryption of a 32-bit value, fresh identity. -/
def fheAsEuint32 (n : Nat) : Ct := ⟨n % 2 ^ 32, []⟩

/-- Model of `FHE.asEuint8`: trivial encryption of an 8-bit value, fresh identity. -/
def fheAsEuint8 (n : Nat) : Ct := ⟨n % 2 ^ 8, []⟩

/-- Model of `FHE.add` on `euint32`: wrapping 32-bit addition, fresh identity.
A `none` (uninitialized-handle) operand propagates. -/
def fheAdd32 (a b : Option Ct) : Option Ct :=
  match a, b with
  | some x, some y => some ⟨(x.val + y.val) % 2 ^ 32, []⟩
  | _, _ => none

/-- Model of `FHE.select` on an (already plaintext-modelled) `ebool`: fresh identity. -/
def fheSelect (b : Bool) (x y : Ct) : Ct :=
  if b then ⟨x.val, []⟩ else ⟨y.val, []⟩

/-- Plaintext of a ciphertext slot, forgetting the ACL. -/
def valOf (o : Option Ct) : Option Nat := o.map Ct.val

/-- The plaintext count a single check-in adds to the course total: 1 when
the submitted 8-bit status equals 1 ("present"), else 0 — the plaintext of
`FHE.select(FHE.eq(status, 1), 1, 0)`. -/
def presentInc (st : Nat) : Nat := if st % 2 ^ 8 = 1 then 1 else 0

/-- The `Course` struct of the contract. -/
structure Course where
  courseId : Nat
  name : String
  teacher : Addr
  startTime : Nat
  endTime : Nat
  isActive : Bool
  isFinalized : Bool
deriving DecidableEq, Repr

/-- Solidity default value of an unwritten `Course` mapping slot. -/
def defaultCourse : Course :=
  { courseId := 0, name := "", teacher := 0, startTime := 0, endTime := 0,
    isActive := false, isFinalized := false }

/-- The contract's storage. -/
structure CState where
  nextCourseId : Nat
  admin : Addr
  courses : Nat → Course
  isTeacher : Addr → Bool
  isStudent : Addr → Bool
  encryptedAttendance : Nat → Addr → Option Ct
  encryptedTotalAttendance : Nat → Option Ct
  encryptedStudentScore : Addr → Option Ct

/-- The constructor: `admin = msg.sender; nextCourseId = 1`. -/
def initState (deployer : Addr) : CState :=
  { nextCourseId := 1
    admin := deployer
    courses := fun _ => defaultCourse
    isTeacher := fun _ => false
    isStudent := fun _ => false
    encryptedAttendance := fun _ _ => none
    encryptedTotalAttendance := fun _ => none
    encryptedStudentScore := fun _ => none }

/-- Function `registerTeacher`, `onlyAdmin`. -/
def registerTeacher (S : CState) (sender t : Addr) : Except String CState :=
  if sender = S.admin then
    Except.ok { S with isTeacher := upd S.isTeacher t true }
  else Except.error "Only admin"

/-- Function `registerStudent`, `onlyAdmin`.  Sets the flag only: no score slot is
written and no ACL is granted. -/
def registerStudent (S : CState) (sender st : Addr) : Except String CState :=
  if sender = S.admin then
    Except.ok { S with isStudent := upd S.isStudent st true }
  else Except.error "Only admin"

/-- Function `selfRegister`: guarded against teachers and repeat registration, then
sets the student flag and writes an encrypted zero score authorized for the
contract and the caller. -/
def selfRegister (S : CState) (sender : Addr) : Except String CState :=
  if S.isTeacher sender = true then
    Except.error "Teachers cannot self-register as students"
  else if S.isStudent sender = true then
    Except.error "Already registered as student"
  else
    Except.ok { S with
      isStudent := upd S.isStudent sender true
      encryptedStudentScore := upd S.encryptedStudentScore sender
        (fheAllow (fheAllow (some (fheAsEuint32 0)) Principal.contractSelf)
          (Principal.user sender)) }

/-- Modelled from the spec: `updateAdmin` is exercised by the repository's
tests (revert reason "Only admin" for non-admin callers, and a successful
admin change by the current admin) but its body is not among the source
files; per the spec the admin role "is transferable by the current admin
only". -/
def updateAdmin (S : CState) (sender newAdmin : Addr) : Except String CState :=
  if sender = S.admin then
    Except.ok { S with admin := newAdmin }
  else Except.error "Only admin"

/-- Function `createCourse`, `onlyTeacher`.  The first `require` computes
`block.timestamp - 300`, which in Solidity 0.8 panics on underflow when the
block time is below 300; that panic is modelled as a distinguished error
string (it is not a `require` reason). -/
def createCourse (S : CState) (sender : Addr) (now : Nat) (name : String)
    (startTime endTime : Nat) : Except String CState :=
  if S.isTeacher sender = true then
    if now < 300 then Except.error "panic: arithmetic underflow"
    else if startTime > now - 300 then
      if endTime > startTime then
        Except.ok { S with
          nextCourseId := S.nextCourseId + 1
          courses := upd S.courses S.nextCourseId
            { courseId := S.nextCourseId, name := name, teacher := sender,
              startTime := startTime, endTime := endTime,
              isActive := true, isFinalized := false }
          encryptedTotalAttendance := upd S.encryptedTotalAttendance S.nextCourseId
            (fheAllow (fheAllow (some (fheAsEuint32 0)) Principal.contractSelf)
              (Principal.user sender)) }
      else Except.error "End time must be after start"
    else Except.error "Start time must not be too far in the past"
  else Except.error "Only teacher"

/-- The storage writes of the `checkIn` body (once every `require` has
passed): import the external ciphertext and grant it to the contract and
the caller, overwrite the attendance cell and grant it to the contract,
the caller and the course teacher, homomorphically add the selected 1/0 to
the course total and the selected 10/0 to the caller's score, and re-grant
on both updated ciphertexts. -/
def checkInEffect (S : CState) (sender : Addr) (courseId : Nat) (st : Nat) :
    CState :=
  let status : Ct :=
    aclGrant (Principal.user sender)
      (aclGrant Principal.contractSelf (fheAsEuint8 st))
  let teacher : Addr := (S.courses courseId).teacher
  let att : Option Ct :=
    fheAllow (fheAllow (fheAllow (some status)
      Principal.contractSelf) (Principal.user sender))
      (Principal.user teacher)
  let isAttending : Bool := status.val == 1
  let total1 : Option Ct :=
    fheAdd32 (S.encryptedTotalAttendance courseId)
      (some (fheSelect isAttending (fheAsEuint32 1) (fheAsEuint32 0)))
  let score1 : Option Ct :=
    fheAdd32 (S.encryptedStudentScore sender)
      (some (fheSelect isAttending (fheAsEuint32 10) (fheAsEuint32 0)))
  { S with
    encryptedAttendance := upd S.encryptedAttendance courseId
      (upd (S.encryptedAttendance courseId) sender att)
    encryptedTotalAttendance := upd S.encryptedTotalAttendance courseId
      (fheAllow (fheAllow (fheAllow total1 Principal.contractSelf)
        (Principal.user sender)) (Principal.user teacher))
    encryptedStudentScore := upd S.encryptedStudentScore sender
      (fheAllow (fheAllow score1 Principal.contractSelf)
        (Principal.user sender)) }

/-- Function `checkIn`, `onlyStudent courseExists(courseId)`, then the three time /
lifecycle checks in source order.  `st` is the plaintext of the external
`euint8` (the `proof` having validated); an invalid proof reverts inside
the FHE runtime and is outside this model. -/
def checkIn (S : CState) (sender : Addr) (now : Nat) (courseId : Nat)
    (st : Nat) : Except String CState :=
  if S.isStudent sender = true then
    if 0 < courseId ∧ courseId < S.nextCourseId then
      if (S.courses courseId).courseId = courseId then
        if (S.courses courseId).startTime ≤ now then
          if now ≤ (S.courses courseId).endTime then
            if (S.courses courseId).isFinalized = false then
              Except.ok (checkInEffect S sender courseId st)
            else Except.error "Course finalized"
          else Except.error "Course already ended"
        else Except.error "Course not started"
      else Except.error "Course not initialized"
    else Except.error "Course does not exist"
  else Except.error "Only student"

/-- Function `generateRandomBonus`, `onlyTeacher`; `r` is the plaintext drawn by
`FHE.randEuint8` (an 8-bit value), widened and added to the score. -/
def generateRandomBonus (S : CState) (sender : Addr) (r : Nat)
    (student : Addr) : Except String CState :=
  if S.isTeacher sender = true then
    Except.ok { S with
      encryptedStudentScore := upd S.encryptedStudentScore student
        (fheAllow (fheAllow
          (fheAdd32 (S.encryptedStudentScore student) (some (fheAsEuint8 r)))
          Principal.contractSelf) (Principal.user student)) }
  else Except.error "Only teacher"

/-- Function `finalizeCourse`, `onlyTeacher`, then course / ownership / lifecycle
checks in source order. -/
def finalizeCourse (S : CState) (sender : Addr) (courseId : Nat) :
    Except String CState :=
  if S.isTeacher sender = true then
    if (S.courses courseId).courseId ≠ 0 then
      if (S.courses courseId).teacher = sender then
        if (S.courses courseId).isFinalized = false then
          Except.ok { S with
            courses := upd S.courses courseId
              { S.courses courseId with isFinalized := true, isActive := false } }
        else Except.error "Course already finalized"
      else Except.error "Only course teacher can finalize"
    else Except.error "Course does not exist"
  else Except.error "Only teacher"

/-- Function `toggleCourseStatus`, `onlyTeacher`, then checks in source order. -/
def toggleCourseStatus (S : CState) (sender : Addr) (courseId : Nat) :
    Except String CState :=
  if S.isTeacher sender = true then
    if (S.courses courseId).courseId ≠ 0 then
      if (S.courses courseId).teacher = sender then
        if (S.courses courseId).isFinalized = false then
          Except.ok { S with
            courses := upd S.courses courseId
              { S.courses courseId with
                isActive := !(S.courses courseId).isActive } }
        else Except.error "Cannot modify finalized course"
      else Except.error "Only course teacher can modify"
    else Except.error "Course does not exist"
  else Except.error "Only teacher"

/-- View `getStudentAttendance`, `courseExists` then the authorization check. -/
def getStudentAttendance (S : CState) (sender : Addr) (courseId : Nat)
    (student : Addr) : Except String (Option Ct) :=
  if 0 < courseId ∧ courseId < S.nextCourseId then
    if (S.courses courseId).courseId = courseId then
      if sender = student ∨ sender = (S.courses courseId).teacher
          ∨ sender = S.admin then
        Except.ok (S.encryptedAttendance courseId student)
      else Except.error "Not authorized"
    else Except.error "Course not initialized"
  else Except.error "Course does not exist"

/-- View `getCourseAttendance`, `courseExists` then the authorization check. -/
def getCourseAttendance (S : CState) (sender : Addr) (courseId : Nat) :
    Except String (Option Ct) :=
  if 0 < courseId ∧ courseId < S.nextCourseId then
    if (S.courses courseId).courseId = courseId then
      if sender = (S.courses courseId).teacher ∨ sender = S.admin then
        Except.ok (S.encryptedTotalAttendance courseId)
      else Except.error "Not authorized"
    else Except.error "Course not initialized"
  else Except.error "Course does not exist"

/-- View `getStudentScore`: no course modifier, only the authorization check. -/
def getStudentScore (S : CState) (sender student : Addr) :
    Except String (Option Ct) :=
  if sender = student ∨ sender = S.admin then
    Except.ok (S.encryptedStudentScore student)
  else Except.error "Not authorized"

/-- Return shape of `getCourseDebugInfo`. -/
structure CourseDebugInfo where
  name : String
  teacher : Addr
  startTime : Nat
  endTime : Nat
  isActive : Bool
  isFinalized : Bool
  currentTime : Nat
  canCheckIn : Bool
deriving DecidableEq, Repr

/-- View `getCourseDebugInfo`, `courseExists`; `canCheckIn` additionally
requires `isActive`. -/
def getCourseDebugInfo (S : CState) (now : Nat) (courseId : Nat) :
    Except String CourseDebugInfo :=
  if 0 < courseId ∧ courseId < S.nextCourseId then
    if (S.courses courseId).courseId = courseId then
      Except.ok
        { name := (S.courses courseId).name
          teacher := (S.courses courseId).teacher
          startTime := (S.courses courseId).startTime
          endTime := (S.courses courseId).endTime
          isActive := (S.courses courseId).isActive
          isFinalized := (S.courses courseId).isFinalized
          currentTime := now
          canCheckIn :=
            decide ((S.courses courseId).startTime ≤ now) &&
            decide (now ≤ (S.courses courseId).endTime) &&
            !(S.courses courseId).isFinalized &&
            (S.courses courseId).isActive }
    else Except.error "Course not initialized"
  else Except.error "Course does not exist"

/-- View `hasStudentCheckedIn`, `courseExists`; the body is `return true`. -/
def hasStudentCheckedIn (S : CState) (courseId : Nat) (_student : Addr) :
    Except String Bool :=
  if 0 < courseId ∧ courseId < S.nextCourseId then
    if (S.courses courseId).courseId = courseId then
      Except.ok true
    else Except.error "Course not initialized"
  else Except.error "Course does not exist"

/-- One state-mutating call to the contract, with `msg.sender`,
`block.timestamp` and the plaintexts of encrypted inputs made explicit.
`compareStudentScores` writes no contract storage and is omitted. -/
inductive Op where
  | opRegisterTeacher (sender t : Addr)
  | opRegisterStudent (sender st : Addr)
  | opSelfRegister (sender : Addr)
  | opUpdateAdmin (sender newAdmin : Addr)
  | opCreateCourse (sender : Addr) (now : Nat) (name : String) (startT endT : Nat)
  | opCheckIn (sender : Addr) (now : Nat) (courseId st : Nat)
  | opGenerateRandomBonus (sender : Addr) (r : Nat) (student : Addr)
  | opFinalizeCourse (sender : Addr) (courseId : Nat)
  | opToggleCourseStatus (sender : Addr) (courseId : Nat)

/-- Dispatch one call. -/
def applyOp (S : CState) : Op → Except String CState
  | Op.opRegisterTeacher sender t => registerTeacher S sender t
  | Op.opRegisterStudent sender st => registerStudent S sender st
  | Op.opSelfRegister sender => selfRegister S sender
  | Op.opUpdateAdmin sender newAdmin => updateAdmin S sender newAdmin
  | Op.opCreateCourse sender now name startT endT =>
      createCourse S sender now name startT endT
  | Op.opCheckIn sender now courseId st => checkIn S sender now courseId st
  | Op.opGenerateRandomBonus sender r student =>
      generateRandomBonus S sender r student
  | Op.opFinalizeCourse sender courseId => finalizeCourse S sender courseId
  | Op.opToggleCourseStatus sender courseId => toggleCourseStatus S sender courseId

/-- States reachable from deployment by successful calls. -/
inductive Reachable : CState → Prop where
  | init (deployer : Addr) : Reachable (initState deployer)
  | step {S S' : CState} {op : Op} : Reachable S → applyOp S op = Except.ok S' →
      Reachable S'

/-- Structural invariant of the course table: slots at or beyond the
counter are unwritten, every written course was created with
`endTime > startTime`, and a finalized course is inactive. -/
structure StateInv (S : CState) : Prop where
  fresh : ∀ id, S.nextCourseId ≤ id → S.courses id = defaultCourse
  times : ∀ id, (S.courses id).courseId ≠ 0 →
      (S.courses id).startTime < (S.courses id).endTime
  finInactive : ∀ id, (S.courses id).isFinalized = true →
      (S.courses id).isActive = false

/-- Successful-step extractor, used to spell out concrete scenario states. -/
def stepOk (S : CState) (op : Op) : CState :=
  match applyOp S op with
  | Except.ok S' => S'
  | Except.error _ => S

/-- Deployment by address 0. -/
def sA : CState := initState 0

/-- The admin registers teacher 1. -/
def sB : CState := stepOk sA (Op.opRegisterTeacher 0 1)

/-- Student 2 self-registers. -/
def sC : CState := stepOk sB (Op.opSelfRegister 2)

/-- Teacher 1 creates course 1 (start 1000, end 2000) at block time 1000. -/
def sD : CState := stepOk sC (Op.opCreateCourse 1 1000 "Math" 1000 2000)

/-- Teacher 1 finalizes course 1 (early finalization is allowed). -/
def sE : CState := stepOk sD (Op.opFinalizeCourse 1 1)

/-- Teacher 1 deactivates course 1 instead (from `sD`). -/
def sDt : CState := stepOk sD (Op.opToggleCourseStatus 1 1)

theorem reach_sB : Reachable sB :=
  @Reachable.step sA sB (Op.opRegisterTeacher 0 1) (Reachable.init 0) rfl

theorem reach_sC : Reachable sC :=
  @Reachable.step sB sC (Op.opSelfRegister 2) reach_sB rfl

theorem reach_sD : Reachable sD :=
  @Reachable.step sC sD (Op.opCreateCourse 1 1000 "Math" 1000 2000) reach_sC rfl

theorem reach_sE : Reachable sE :=
  @Reachable.step sD sE (Op.opFinalizeCourse 1 1) reach_sD rfl

example : sD.isStudent 2 = true := by decide
example : sD.isTeacher 1 = true := by decide
example : (sD.courses 1).startTime = 1000 := by decide
example : (sD.courses 1).isFinalized = false := by decide
example : (sE.courses 1).isFinalized = true := by decide
example : (sE.courses 1).isActive = false := by decide
example : sD.encryptedTotalAttendance 1 =
    some ⟨0, [Principal.contractSelf, Principal.user 1]⟩ := by decide
example : sD.encryptedStudentScore 2 =
    some ⟨0, [Principal.contractSelf, Principal.user 2]⟩ := by decide
example : checkIn sE 2 500 1 1 = Except.error "Course not started" := rfl
example : (stepOk sD (Op.opCheckIn 2 1500 1 1)).encryptedTotalAttendance 1 =
    some ⟨1, [Principal.contractSelf, Principal.user 2, Principal.user 1]⟩ := by
  decide
example : (stepOk sD (Op.opCheckIn 2 1500 1 1)).encryptedStudentScore 2 =
    some ⟨10, [Principal.contractSelf, Principal.user 2]⟩ := by decide
example : (stepOk sD (Op.opCheckIn 2 1500 1 1)).encryptedAttendance 1 2 =
    some ⟨1, [Principal.contractSelf, Principal.user 2, Principal.user 1]⟩ := by
  decide

/-- A successful `checkIn` produces exactly the `checkInEffect` state. -/
theorem checkIn_ok_state {S S' : CState} {sender : Addr} {now courseId st : Nat}
    (h : checkIn S sender now courseId st = Except.ok S') :
    S' = checkInEffect S sender courseId st := by
  unfold checkIn at h
  split_ifs at h
  exact (Except.ok.inj h).symm

/-- Lemma: `checkIn` succeeds exactly when all of its guards pass. -/
theorem checkIn_ok_of_guards {S : CState} {sender : Addr} {now courseId st : Nat}
    (hStu : S.isStudent sender = true)
    (hLo : 0 < courseId) (hHi : courseId < S.nextCourseId)
    (hInit : (S.courses courseId).courseId = courseId)
    (hStart : (S.courses courseId).startTime ≤ now)
    (hEnd : now ≤ (S.courses courseId).endTime)
    (hFin : (S.courses courseId).isFinalized = false) :
    checkIn S sender now courseId st = Except.ok (checkInEffect S sender courseId st) := by
  unfold checkIn
  rw [if_pos hStu, if_pos ⟨hLo, hHi⟩, if_pos hInit, if_pos hStart, if_pos hEnd,
    if_pos hFin]

theorem aclGrant_val (p : Principal) (c : Ct) : (aclGrant p c).val = c.val := by
  unfold aclGrant
  split <;> rfl

theorem valOf_fheAllow (o : Option Ct) (p : Principal) :
    valOf (fheAllow o p) = valOf o := by
  cases o with
  | none => rfl
  | some c => simp [valOf, fheAllow, aclGrant_val]

theorem upd_self {α β : Type} [DecidableEq α] (f : α → β) (k : α) (v : β) :
    upd f k v k = v := by
  simp [upd]

theorem upd_other {α β : Type} [DecidableEq α] (f : α → β) (k : α) (v : β)
    (x : α) (h : x ≠ k) : upd f k v x = f x := by
  simp [upd, h]

theorem valOf_eq_some {o : Option Ct} {v : Nat} :
    valOf o = some v ↔ ∃ acl, o = some ⟨v, acl⟩ := by
  constructor
  · intro h
    cases o with
    | none => simp [valOf] at h
    | some c =>
        cases c with
        | mk w acl =>
            refine ⟨acl, ?_⟩
            have hw : w = v := by simpa [valOf] using h
            rw [hw]
  · rintro ⟨acl, rfl⟩
    rfl

/-- The attendance cell a successful check-in stores: the submitted 8-bit
plaintext. -/
theorem checkInEffect_att_val (S : CState) (sender : Addr) (courseId st : Nat) :
    valOf ((checkInEffect S sender courseId st).encryptedAttendance courseId sender)
      = some (st % 2 ^ 8) := by
  simp only [checkInEffect]
  rw [upd_self, upd_self, valOf_fheAllow, valOf_fheAllow, valOf_fheAllow]
  simp [valOf, aclGrant_val, fheAsEuint8]

/-- The course total a successful check-in stores: the prior plaintext plus
the homomorphically selected 1-or-0, wrapping at 32 bits. -/
theorem checkInEffect_total_val (S : CState) (sender : Addr) (courseId st : Nat)
    (t : Nat) (tAcl : List Principal)
    (hTot : S.encryptedTotalAttendance courseId = some ⟨t, tAcl⟩) :
    valOf ((checkInEffect S sender courseId st).encryptedTotalAttendance courseId)
      = some ((t + presentInc st) % 2 ^ 32) := by
  simp only [checkInEffect]
  rw [upd_self, valOf_fheAllow, valOf_fheAllow, valOf_fheAllow, hTot]
  simp only [valOf, fheAdd32, fheSelect, fheAsEuint32, fheAsEuint8,
    aclGrant_val, presentInc, Option.map_some', Option.some.injEq]
  by_cases h : st % 256 = 1 <;> simp [h]

/-- The student score a successful check-in stores: the prior plaintext plus
the homomorphically selected 10-or-0, wrapping at 32 bits. -/
theorem checkInEffect_score_val (S : CState) (sender : Addr) (courseId st : Nat)
    (s : Nat) (sAcl : List Principal)
    (hSc : S.encryptedStudentScore sender = some ⟨s, sAcl⟩) :
    valOf ((checkInEffect S sender courseId st).encryptedStudentScore sender)
      = some ((s + 10 * presentInc st) % 2 ^ 32) := by
  simp only [checkInEffect]
  rw [upd_self, valOf_fheAllow, valOf_fheAllow, hSc]
  simp only [valOf, fheAdd32, fheSelect, fheAsEuint32, fheAsEuint8,
    aclGrant_val, presentInc, Option.map_some', Option.some.injEq]
  by_cases h : st % 256 = 1 <;> simp [h]

theorem presentInc_le_one (st : Nat) : presentInc st ≤ 1 := by
  unfold presentInc
  split <;> omega

/-- C1: a successful check-in stores the submitted ciphertext in the
student's attendance cell; in plaintext terms, status 1 ("present") adds 1
to the course's encrypted total and 10 to the student's encrypted score,
while status 2 ("absent") leaves both unchanged (values assumed within the
32-bit range, so no wraparound). -/
theorem C1_checkin_arithmetic (S : CState) (sender : Addr)
    (now courseId st : Nat) (S' : CState) (t s : Nat)
    (tAcl sAcl : List Principal)
    (hTot : S.encryptedTotalAttendance courseId = some ⟨t, tAcl⟩)
    (hSc : S.encryptedStudentScore sender = some ⟨s, sAcl⟩)
    (ht : t + 1 < 2 ^ 32) (hs : s + 10 < 2 ^ 32)
    (hOk : checkIn S sender now courseId st = Except.ok S') :
    (∃ acl, S'.encryptedAttendance courseId sender = some ⟨st % 2 ^ 8, acl⟩)
    ∧ (st = 1 →
        (∃ acl, S'.encryptedTotalAttendance courseId = some ⟨t + 1, acl⟩)
        ∧ ∃ acl, S'.encryptedStudentScore sender = some ⟨s + 10, acl⟩)
    ∧ (st = 2 →
        (∃ acl, S'.encryptedTotalAttendance courseId = some ⟨t, acl⟩)
        ∧ ∃ acl, S'.encryptedStudentScore sender = some ⟨s, acl⟩) := by
  have hS' := checkIn_ok_state hOk
  subst hS'
  refine ⟨valOf_eq_some.mp (checkInEffect_att_val S sender courseId st), ?_, ?_⟩
  · rintro rfl
    have hT := checkInEffect_total_val S sender courseId 1 t tAcl hTot
    have hV := checkInEffect_score_val S sender courseId 1 s sAcl hSc
    have e1 : presentInc 1 = 1 := rfl
    rw [e1] at hT hV
    rw [show (t + 1) % 2 ^ 32 = t + 1 by omega] at hT
    rw [show (s + 10 * 1) % 2 ^ 32 = s + 10 by omega] at hV
    exact ⟨valOf_eq_some.mp hT, valOf_eq_some.mp hV⟩
  · rintro rfl
    have hT := checkInEffect_total_val S sender courseId 2 t tAcl hTot
    have hV := checkInEffect_score_val S sender courseId 2 s sAcl hSc
    have e2 : presentInc 2 = 0 := rfl
    rw [e2] at hT hV
    rw [show (t + 0) % 2 ^ 32 = t by omega] at hT
    rw [show (s + 10 * 0) % 2 ^ 32 = s by omega] at hV
    exact ⟨valOf_eq_some.mp hT, valOf_eq_some.mp hV⟩

/-- Witness for C1: in `sD`, student 2's "present" check-in at time 1500
stores ciphertext 1 and moves the totals from 0 to 1 and from 0 to 10. -/
theorem C1_checkin_arithmetic_witness :
    (∃ acl, (stepOk sD (Op.opCheckIn 2 1500 1 1)).encryptedAttendance 1 2 =
      some ⟨1 % 2 ^ 8, acl⟩)
    ∧ ((1 : Nat) = 1 →
        (∃ acl, (stepOk sD (Op.opCheckIn 2 1500 1 1)).encryptedTotalAttendance 1 =
          some ⟨0 + 1, acl⟩)
        ∧ ∃ acl, (stepOk sD (Op.opCheckIn 2 1500 1 1)).encryptedStudentScore 2 =
          some ⟨0 + 10, acl⟩)
    ∧ ((1 : Nat) = 2 →
        (∃ acl, (stepOk sD (Op.opCheckIn 2 1500 1 1)).encryptedTotalAttendance 1 =
          some ⟨0, acl⟩)
        ∧ ∃ acl, (stepOk sD (Op.opCheckIn 2 1500 1 1)).encryptedStudentScore 2 =
          some ⟨0, acl⟩) :=
  C1_checkin_arithmetic sD 2 1500 1 1 (stepOk sD (Op.opCheckIn 2 1500 1 1)) 0 0
    [Principal.contractSelf, Principal.user 1]
    [Principal.contractSelf, Principal.user 2]
    (by decide) (by decide) (by decide) (by decide) rfl

/-- C3: two successful check-ins by the same student on the same course:
the second overwrites the stored cell with its own ciphertext, and each
call adds to the course total and the student score based solely on its own
present/absent status, so two "present" submissions add 2 to the total and
20 to the score in all (values assumed within the 32-bit range). -/
theorem C3_checkin_resubmission (S : CState) (sender : Addr)
    (now1 now2 courseId st1 st2 : Nat) (S1 S2 : CState) (t s : Nat)
    (tAcl sAcl : List Principal)
    (hTot : S.encryptedTotalAttendance courseId = some ⟨t, tAcl⟩)
    (hSc : S.encryptedStudentScore sender = some ⟨s, sAcl⟩)
    (ht : t + 2 < 2 ^ 32) (hs : s + 20 < 2 ^ 32)
    (h1 : checkIn S sender now1 courseId st1 = Except.ok S1)
    (h2 : checkIn S1 sender now2 courseId st2 = Except.ok S2) :
    (∃ acl, S2.encryptedAttendance courseId sender = some ⟨st2 % 2 ^ 8, acl⟩)
    ∧ (∃ acl, S2.encryptedTotalAttendance courseId =
        some ⟨t + presentInc st1 + presentInc st2, acl⟩)
    ∧ (∃ acl, S2.encryptedStudentScore sender =
        some ⟨s + 10 * presentInc st1 + 10 * presentInc st2, acl⟩)
    ∧ (st1 = 1 → st2 = 1 →
        (∃ acl, S2.encryptedTotalAttendance courseId = some ⟨t + 2, acl⟩)
        ∧ ∃ acl, S2.encryptedStudentScore sender = some ⟨s + 20, acl⟩) := by
  have hi1 := presentInc_le_one st1
  have hi2 := presentInc_le_one st2
  have hS1 := checkIn_ok_state h1
  subst hS1
  have hS2 := checkIn_ok_state h2
  subst hS2
  have hT1 := checkInEffect_total_val S sender courseId st1 t tAcl hTot
  obtain ⟨acl1, hT1'⟩ := valOf_eq_some.mp hT1
  have hV1 := checkInEffect_score_val S sender courseId st1 s sAcl hSc
  obtain ⟨acl2, hV1'⟩ := valOf_eq_some.mp hV1
  have hT2 := checkInEffect_total_val (checkInEffect S sender courseId st1)
    sender courseId st2 _ acl1 hT1'
  have hV2 := checkInEffect_score_val (checkInEffect S sender courseId st1)
    sender courseId st2 _ acl2 hV1'
  rw [show ((t + presentInc st1) % 2 ^ 32 + presentInc st2) % 2 ^ 32 =
      t + presentInc st1 + presentInc st2 by omega] at hT2
  rw [show ((s + 10 * presentInc st1) % 2 ^ 32 + 10 * presentInc st2) % 2 ^ 32 =
      s + 10 * presentInc st1 + 10 * presentInc st2 by omega] at hV2
  refine ⟨valOf_eq_some.mp (checkInEffect_att_val
      (checkInEffect S sender courseId st1) sender courseId st2),
    valOf_eq_some.mp hT2, valOf_eq_some.mp hV2, ?_⟩
  rintro rfl rfl
  have e1 : presentInc 1 = 1 := rfl
  rw [e1] at hT2 hV2
  rw [show t + 1 + 1 = t + 2 by omega] at hT2
  rw [show s + 10 * 1 + 10 * 1 = s + 20 by omega] at hV2
  exact ⟨valOf_eq_some.mp hT2, valOf_eq_some.mp hV2⟩

/-- Witness for C3: in `sD`, student 2 submits "present" twice (times 1500
and 1600); the total ends at 0 + 2 and the score at 0 + 20. -/
theorem C3_checkin_resubmission_witness :
    (∃ acl, (stepOk (stepOk sD (Op.opCheckIn 2 1500 1 1))
        (Op.opCheckIn 2 1600 1 1)).encryptedAttendance 1 2 =
      some ⟨1 % 2 ^ 8, acl⟩)
    ∧ (∃ acl, (stepOk (stepOk sD (Op.opCheckIn 2 1500 1 1))
        (Op.opCheckIn 2 1600 1 1)).encryptedTotalAttendance 1 =
      some ⟨0 + presentInc 1 + presentInc 1, acl⟩)
    ∧ (∃ acl, (stepOk (stepOk sD (Op.opCheckIn 2 1500 1 1))
        (Op.opCheckIn 2 1600 1 1)).encryptedStudentScore 2 =
      some ⟨0 + 10 * presentInc 1 + 10 * presentInc 1, acl⟩)
    ∧ ((1 : Nat) = 1 → (1 : Nat) = 1 →
        (∃ acl, (stepOk (stepOk sD (Op.opCheckIn 2 1500 1 1))
            (Op.opCheckIn 2 1600 1 1)).encryptedTotalAttendance 1 =
          some ⟨0 + 2, acl⟩)
        ∧ ∃ acl, (stepOk (stepOk sD (Op.opCheckIn 2 1500 1 1))
            (Op.opCheckIn 2 1600 1 1)).encryptedStudentScore 2 =
          some ⟨0 + 20, acl⟩) :=
  C3_checkin_resubmission sD 2 1500 1600 1 1 1
    (stepOk sD (Op.opCheckIn 2 1500 1 1))
    (stepOk (stepOk sD (Op.opCheckIn 2 1500 1 1)) (Op.opCheckIn 2 1600 1 1))
    0 0 [Principal.contractSelf, Principal.user 1]
    [Principal.contractSelf, Principal.user 2]
    (by decide) (by decide) (by decide) (by decide) rfl rfl

/-- C5: for an existing course, `getStudentAttendance` reverts with
"Not authorized" exactly for callers other than the student, the course's
teacher and the admin; `getCourseAttendance` exactly for callers other than
the course's teacher and the admin; and `getStudentScore` (no course
involved) exactly for callers other than the student and the admin. -/
theorem C5_view_authorization (S : CState) (courseId : Nat)
    (hLo : 0 < courseId) (hHi : courseId < S.nextCourseId)
    (hInit : (S.courses courseId).courseId = courseId) :
    (∀ caller student : Addr,
      getStudentAttendance S caller courseId student = Except.error "Not authorized"
        ↔ ¬(caller = student ∨ caller = (S.courses courseId).teacher
            ∨ caller = S.admin))
    ∧ (∀ caller : Addr,
      getCourseAttendance S caller courseId = Except.error "Not authorized"
        ↔ ¬(caller = (S.courses courseId).teacher ∨ caller = S.admin))
    ∧ (∀ caller student : Addr,
      getStudentScore S caller student = Except.error "Not authorized"
        ↔ ¬(caller = student ∨ caller = S.admin)) := by
  refine ⟨fun caller student => ?_, fun caller => ?_, fun caller student => ?_⟩
  · unfold getStudentAttendance
    rw [if_pos ⟨hLo, hHi⟩, if_pos hInit]
    by_cases h : caller = student ∨ caller = (S.courses courseId).teacher
        ∨ caller = S.admin <;> simp [h]
  · unfold getCourseAttendance
    rw [if_pos ⟨hLo, hHi⟩, if_pos hInit]
    by_cases h : caller = (S.courses courseId).teacher ∨ caller = S.admin <;>
      simp [h]
  · unfold getStudentScore
    by_cases h : caller = student ∨ caller = S.admin <;> simp [h]

/-- Witness for C5 on the concrete scenario: in `sD` (course 1, teacher 1,
admin 0), caller 9 is rejected by all three views while the proper parties
are not. -/
theorem C5_view_authorization_witness :
    (getStudentAttendance sD 9 1 2 = Except.error "Not authorized"
      ↔ ¬((9 : Addr) = 2 ∨ (9 : Addr) = (sD.courses 1).teacher
          ∨ (9 : Addr) = sD.admin)) :=
  (C5_view_authorization sD 1 (by decide) (by decide) (by decide)).1 9 2

/-- C10: for every existing course, `hasStudentCheckedIn` returns `true`
for every student address, never consulting any check-in record. -/
theorem C10_hasStudentCheckedIn_const (S : CState) (courseId : Nat)
    (hLo : 0 < courseId) (hHi : courseId < S.nextCourseId)
    (hInit : (S.courses courseId).courseId = courseId) :
    ∀ student : Addr, hasStudentCheckedIn S courseId student = Except.ok true := by
  intro student
  unfold hasStudentCheckedIn
  rw [if_pos ⟨hLo, hHi⟩, if_pos hInit]

/-- Witness for C10: in `sD`, address 77 never checked in to course 1 yet
the query answers `true`. -/
theorem C10_hasStudentCheckedIn_const_witness :
    hasStudentCheckedIn sD 1 77 = Except.ok true :=
  C10_hasStudentCheckedIn_const sD 1 (by decide) (by decide) (by decide) 77

/-- C9: `checkIn` never consults `isActive`: for a registered student and an
existing, unfinalized course inside its time window, `checkIn` succeeds even
with `isActive = false`, while `getCourseDebugInfo` on the same course
reports `canCheckIn = false` because it additionally requires `isActive`. -/
theorem C9_checkin_ignores_isActive (S : CState) (sender : Addr)
    (now courseId st : Nat)
    (hStu : S.isStudent sender = true)
    (hLo : 0 < courseId) (hHi : courseId < S.nextCourseId)
    (hInit : (S.courses courseId).courseId = courseId)
    (hStart : (S.courses courseId).startTime ≤ now)
    (hEnd : now ≤ (S.courses courseId).endTime)
    (hFin : (S.courses courseId).isFinalized = false)
    (hAct : (S.courses courseId).isActive = false) :
    checkIn S sender now courseId st = Except.ok (checkInEffect S sender courseId st)
    ∧ ∃ d, getCourseDebugInfo S now courseId = Except.ok d
        ∧ d.canCheckIn = false := by
  refine ⟨checkIn_ok_of_guards hStu hLo hHi hInit hStart hEnd hFin, ?_⟩
  unfold getCourseDebugInfo
  rw [if_pos ⟨hLo, hHi⟩, if_pos hInit]
  exact ⟨_, rfl, by simp [hAct]⟩

/-- Witness for C9: in `sDt` course 1 is deactivated but not finalized;
student 2's check-in at time 1500 succeeds while the debug view says
`canCheckIn = false`. -/
theorem C9_checkin_ignores_isActive_witness :
    checkIn sDt 2 1500 1 1 = Except.ok (checkInEffect sDt 2 1 1)
    ∧ ∃ d, getCourseDebugInfo sDt 1500 1 = Except.ok d
        ∧ d.canCheckIn = false :=
  C9_checkin_ignores_isActive sDt 2 1500 1 1 (by decide) (by decide) (by decide)
    (by decide) (by decide) (by decide) (by decide) (by decide)

/-- C2 (amended): for a registered student and an existing course, the
check-in guards fire in source order — "Course not started" whenever
`now < startTime`; once `startTime ≤ now`, "Course already ended" whenever
`now > endTime`; once `startTime ≤ now ≤ endTime`, "Course finalized"
whenever the course is finalized; and with all three satisfied the call
passes these checks, so both bounds are inclusive. -/
theorem C2_checkin_window_guards (S : CState) (sender : Addr)
    (now courseId st : Nat)
    (hStu : S.isStudent sender = true)
    (hLo : 0 < courseId) (hHi : courseId < S.nextCourseId)
    (hInit : (S.courses courseId).courseId = courseId) :
    (now < (S.courses courseId).startTime →
      checkIn S sender now courseId st = Except.error "Course not started")
    ∧ ((S.courses courseId).startTime ≤ now →
        (S.courses courseId).endTime < now →
      checkIn S sender now courseId st = Except.error "Course already ended")
    ∧ ((S.courses courseId).startTime ≤ now → now ≤ (S.courses courseId).endTime →
        (S.courses courseId).isFinalized = true →
      checkIn S sender now courseId st = Except.error "Course finalized")
    ∧ ((S.courses courseId).startTime ≤ now → now ≤ (S.courses courseId).endTime →
        (S.courses courseId).isFinalized = false →
      checkIn S sender now courseId st =
        Except.ok (checkInEffect S sender courseId st)) := by
  refine ⟨fun h1 => ?_, fun h1 h2 => ?_, fun h1 h2 h3 => ?_, fun h1 h2 h3 =>
    checkIn_ok_of_guards hStu hLo hHi hInit h1 h2 h3⟩
  · unfold checkIn
    rw [if_pos hStu, if_pos ⟨hLo, hHi⟩, if_pos hInit, if_neg (by omega)]
  · unfold checkIn
    rw [if_pos hStu, if_pos ⟨hLo, hHi⟩, if_pos hInit, if_pos h1,
      if_neg (by omega)]
  · unfold checkIn
    rw [if_pos hStu, if_pos ⟨hLo, hHi⟩, if_pos hInit, if_pos h1, if_pos h2,
      if_neg (by simp [h3])]

/-- Witness for C2 (amended) at the scenario course: both boundary instants
pass the guards. -/
theorem C2_checkin_window_guards_witness :
    checkIn sD 2 1000 1 1 = Except.ok (checkInEffect sD 2 1 1)
    ∧ checkIn sD 2 2000 1 2 = Except.ok (checkInEffect sD 2 1 2)
    ∧ checkIn sD 2 999 1 1 = Except.error "Course not started"
    ∧ checkIn sD 2 2001 1 1 = Except.error "Course already ended" :=
  ⟨(C2_checkin_window_guards sD 2 1000 1 1 (by decide) (by decide) (by decide)
      (by decide)).2.2.2 (by decide) (by decide) (by decide),
   (C2_checkin_window_guards sD 2 2000 1 2 (by decide) (by decide) (by decide)
      (by decide)).2.2.2 (by decide) (by decide) (by decide),
   (C2_checkin_window_guards sD 2 999 1 1 (by decide) (by decide) (by decide)
      (by decide)).1 (by decide),
   (C2_checkin_window_guards sD 2 2001 1 1 (by decide) (by decide) (by decide)
      (by decide)).2.1 (by decide) (by decide)⟩

/-- Counterexample for C2 as stated: in `sE` course 1 is finalized, student
2 is registered and the course exists, yet a check-in at time 500 (before
`startTime = 1000`) reverts with "Course not started", not with "Course
finalized" — its clause that the call reverts with that reason whenever the
course is finalized" clause fails because the start-time check runs first. -/
theorem C2_checkin_window_guards_counterexample :
    sE.isStudent 2 = true ∧ (0 : Nat) < 1 ∧ 1 < sE.nextCourseId
    ∧ (sE.courses 1).courseId = 1
    ∧ (sE.courses 1).isFinalized = true
    ∧ checkIn sE 2 500 1 1 = Except.error "Course not started"
    ∧ ("Course not started" : String) ≠ "Course finalized" :=
  ⟨by decide, by decide, by decide, by decide, by decide, rfl, by decide⟩

/-- C7: `selfRegister` rejects teachers and repeat registration, and on
success sets the student flag and writes an encrypted zero score authorized
for the contract and the caller; admin-driven `registerStudent` only sets
the student flag and leaves every score slot untouched. -/
theorem C7_registration_paths (S : CState) (sender st : Addr) :
    (S.isTeacher sender = true →
      selfRegister S sender = Except.error "Teachers cannot self-register as students")
    ∧ (S.isTeacher sender = false → S.isStudent sender = true →
      selfRegister S sender = Except.error "Already registered as student")
    ∧ (S.isTeacher sender = false → S.isStudent sender = false →
      ∃ S', selfRegister S sender = Except.ok S'
        ∧ S'.isStudent sender = true
        ∧ S'.encryptedStudentScore sender =
            some ⟨0, [Principal.contractSelf, Principal.user sender]⟩)
    ∧ (∀ S', registerStudent S S.admin st = Except.ok S' →
        S'.isStudent st = true
        ∧ (∀ a : Addr, S'.encryptedStudentScore a = S.encryptedStudentScore a)) := by
  refine ⟨fun h1 => ?_, fun h1 h2 => ?_, fun h1 h2 => ?_, fun S' h => ?_⟩
  · unfold selfRegister
    rw [if_pos h1]
  · unfold selfRegister
    rw [if_neg (by simp [h1]), if_pos h2]
  · refine ⟨{ S with
        isStudent := upd S.isStudent sender true
        encryptedStudentScore := upd S.encryptedStudentScore sender
          (fheAllow (fheAllow (some (fheAsEuint32 0)) Principal.contractSelf)
            (Principal.user sender)) }, ?_, ?_, ?_⟩
    · unfold selfRegister
      rw [if_neg (by simp [h1]), if_neg (by simp [h2])]
    · simp [upd]
    · simp [upd, fheAllow, fheAsEuint32, aclGrant]
  · unfold registerStudent at h
    rw [if_pos rfl] at h
    refine ⟨?_, fun a => ?_⟩
    · rw [← Except.ok.inj h]
      simp [upd]
    · rw [← Except.ok.inj h]

/-- Witness for C7: teacher 1 cannot self-register in `sB`; student 2's
self-registration in `sB` yields the authorized zero score; a second
self-registration by 2 is rejected in `sC`; and the admin registering 5
in `sC` writes no score slot. -/
theorem C7_registration_paths_witness :
    selfRegister sB 1 = Except.error "Teachers cannot self-register as students"
    ∧ selfRegister sC 2 = Except.error "Already registered as student"
    ∧ (∃ S', selfRegister sB 2 = Except.ok S'
        ∧ S'.isStudent 2 = true
        ∧ S'.encryptedStudentScore 2 =
            some ⟨0, [Principal.contractSelf, Principal.user 2]⟩) :=
  ⟨(C7_registration_paths sB 1 0).1 (by decide),
   (C7_registration_paths sC 2 0).2.1 (by decide) (by decide),
   (C7_registration_paths sB 2 0).2.2.1 (by decide) (by decide)⟩

/-- C8: the constructor sets `admin` to the deployer; the admin-transfer
operation (modelled from the spec, exercised by the repository's tests)
rejects every non-admin caller with "Only admin" and lets the current
admin hand the role to a new address. -/
theorem C8_admin_transfer (deployer : Addr) (S : CState) (sender newAdmin : Addr) :
    (initState deployer).admin = deployer
    ∧ (sender ≠ S.admin →
        updateAdmin S sender newAdmin = Except.error "Only admin")
    ∧ (∃ S', updateAdmin S S.admin newAdmin = Except.ok S'
        ∧ S'.admin = newAdmin) := by
  refine ⟨rfl, fun h => ?_, ?_⟩
  · unfold updateAdmin
    rw [if_neg h]
  · refine ⟨{ S with admin := newAdmin }, ?_, rfl⟩
    unfold updateAdmin
    rw [if_pos rfl]

/-- Witness for C8: teacher 1 cannot transfer the admin role of `sB`, while
the deployer-admin 0 can hand it to 1. -/
theorem C8_admin_transfer_witness :
    (initState 7).admin = 7
    ∧ updateAdmin sB 1 1 = Except.error "Only admin"
    ∧ (∃ S', updateAdmin sB sB.admin 1 = Except.ok S' ∧ S'.admin = 1) :=
  ⟨(C8_admin_transfer 7 sB 1 1).1,
   (C8_admin_transfer 7 sB 1 1).2.1 (by decide),
   (C8_admin_transfer 7 sB 1 1).2.2⟩

/-- Frame lemma: a successful call either leaves the course table and the
counter unchanged, creates a fresh course, finalizes an existing
unfinalized course, or toggles an existing unfinalized course. -/
theorem applyOp_courses_cases {S S' : CState} {op : Op}
    (h : applyOp S op = Except.ok S') :
    (S'.nextCourseId = S.nextCourseId ∧ S'.courses = S.courses)
    ∨ (∃ sender name startT endT, S.isTeacher sender = true ∧ startT < endT
        ∧ S'.nextCourseId = S.nextCourseId + 1
        ∧ S'.courses = upd S.courses S.nextCourseId
            { courseId := S.nextCourseId, name := name, teacher := sender,
              startTime := startT, endTime := endT,
              isActive := true, isFinalized := false })
    ∨ (∃ id, (S.courses id).courseId ≠ 0 ∧ (S.courses id).isFinalized = false
        ∧ S'.nextCourseId = S.nextCourseId
        ∧ S'.courses = upd S.courses id
            { S.courses id with isFinalized := true, isActive := false })
    ∨ (∃ id, (S.courses id).courseId ≠ 0 ∧ (S.courses id).isFinalized = false
        ∧ S'.nextCourseId = S.nextCourseId
        ∧ S'.courses = upd S.courses id
            { S.courses id with isActive := !(S.courses id).isActive }) := by
  cases op with
  | opRegisterTeacher sender t =>
      simp only [applyOp, registerTeacher] at h
      split_ifs at h
      rw [← Except.ok.inj h]
      exact Or.inl ⟨rfl, rfl⟩
  | opRegisterStudent sender st =>
      simp only [applyOp, registerStudent] at h
      split_ifs at h
      rw [← Except.ok.inj h]
      exact Or.inl ⟨rfl, rfl⟩
  | opSelfRegister sender =>
      simp only [applyOp, selfRegister] at h
      split_ifs at h
      rw [← Except.ok.inj h]
      exact Or.inl ⟨rfl, rfl⟩
  | opUpdateAdmin sender newAdmin =>
      simp only [applyOp, updateAdmin] at h
      split_ifs at h
      rw [← Except.ok.inj h]
      exact Or.inl ⟨rfl, rfl⟩
  | opCreateCourse sender now name startT endT =>
      simp only [applyOp, createCourse] at h
      split_ifs at h with h1 h2 h3 h4
      rw [← Except.ok.inj h]
      exact Or.inr (Or.inl ⟨sender, name, startT, endT, h1, h4, rfl, rfl⟩)
  | opCheckIn sender now courseId st =>
      simp only [applyOp, checkIn] at h
      split_ifs at h
      rw [← Except.ok.inj h]
      exact Or.inl ⟨rfl, rfl⟩
  | opGenerateRandomBonus sender r student =>
      simp only [applyOp, generateRandomBonus] at h
      split_ifs at h
      rw [← Except.ok.inj h]
      exact Or.inl ⟨rfl, rfl⟩
  | opFinalizeCourse sender courseId =>
      simp only [applyOp, finalizeCourse] at h
      split_ifs at h with h1 h2 h3 h4
      rw [← Except.ok.inj h]
      exact Or.inr (Or.inr (Or.inl ⟨courseId, h2, h4, rfl, rfl⟩))
  | opToggleCourseStatus sender courseId =>
      simp only [applyOp, toggleCourseStatus] at h
      split_ifs at h with h1 h2 h3 h4
      rw [← Except.ok.inj h]
      exact Or.inr (Or.inr (Or.inr ⟨courseId, h2, h4, rfl, rfl⟩))

theorem stateInv_init (deployer : Addr) : StateInv (initState deployer) := by
  refine ⟨fun id _ => rfl, fun id hne => ?_, fun id hfin => ?_⟩
  · exact absurd rfl hne
  · exact absurd hfin (by simp [initState, defaultCourse])

theorem stateInv_step {S S' : CState} {op : Op} (hInv : StateInv S)
    (h : applyOp S op = Except.ok S') : StateInv S' := by
  rcases applyOp_courses_cases h with ⟨hn, hc⟩ |
    ⟨sender, name, a, b, hT, hab, hn, hc⟩ |
    ⟨id0, hne0, hfin0, hn, hc⟩ | ⟨id0, hne0, hfin0, hn, hc⟩
  · exact ⟨fun id hid => hc ▸ hInv.fresh id (hn ▸ hid),
      fun id => hc ▸ hInv.times id, fun id => hc ▸ hInv.finInactive id⟩
  · refine ⟨fun id hid => ?_, fun id hne => ?_, fun id hfin => ?_⟩
    · rw [hn] at hid
      rw [hc, upd_other _ _ _ _ (by omega)]
      exact hInv.fresh id (by omega)
    · rw [hc] at hne ⊢
      by_cases hcase : id = S.nextCourseId
      · subst hcase
        rw [upd_self]
        exact hab
      · rw [upd_other _ _ _ _ hcase] at hne ⊢
        exact hInv.times id hne
    · rw [hc] at hfin ⊢
      by_cases hcase : id = S.nextCourseId
      · subst hcase
        rw [upd_self] at hfin
        exact absurd hfin (by simp)
      · rw [upd_other _ _ _ _ hcase] at hfin ⊢
        exact hInv.finInactive id hfin
  · have hlt : id0 < S.nextCourseId := by
      by_contra hge
      exact hne0 (by rw [hInv.fresh id0 (by omega)]; rfl)
    refine ⟨fun id hid => ?_, fun id hne => ?_, fun id hfin => ?_⟩
    · rw [hn] at hid
      rw [hc, upd_other _ _ _ _ (by omega)]
      exact hInv.fresh id hid
    · rw [hc] at hne ⊢
      by_cases hcase : id = id0
      · subst hcase
        rw [upd_self] at hne ⊢
        exact hInv.times id (by simpa using hne)
      · rw [upd_other _ _ _ _ hcase] at hne ⊢
        exact hInv.times id hne
    · rw [hc] at hfin ⊢
      by_cases hcase : id = id0
      · subst hcase
        rw [upd_self]
      · rw [upd_other _ _ _ _ hcase] at hfin ⊢
        exact hInv.finInactive id hfin
  · have hlt : id0 < S.nextCourseId := by
      by_contra hge
      exact hne0 (by rw [hInv.fresh id0 (by omega)]; rfl)
    refine ⟨fun id hid => ?_, fun id hne => ?_, fun id hfin => ?_⟩
    · rw [hn] at hid
      rw [hc, upd_other _ _ _ _ (by omega)]
      exact hInv.fresh id hid
    · rw [hc] at hne ⊢
      by_cases hcase : id = id0
      · subst hcase
        rw [upd_self] at hne ⊢
        exact hInv.times id (by simpa using hne)
      · rw [upd_other _ _ _ _ hcase] at hne ⊢
        exact hInv.times id hne
    · rw [hc] at hfin ⊢
      by_cases hcase : id = id0
      · subst hcase
        rw [upd_self] at hfin
        exact absurd hfin (by simpa using hfin0)
      · rw [upd_other _ _ _ _ hcase] at hfin ⊢
        exact hInv.finInactive id hfin

theorem reachable_stateInv {S : CState} (h : Reachable S) : StateInv S := by
  induction h with
  | init deployer => exact stateInv_init deployer
  | step hR hOk ih => exact stateInv_step ih hOk

/-- A course once finalized stays finalized across any successful call. -/
theorem finalized_preserved {S S' : CState} {op : Op} (hInv : StateInv S)
    (h : applyOp S op = Except.ok S') (id : Nat)
    (hfin : (S.courses id).isFinalized = true) :
    (S'.courses id).isFinalized = true := by
  rcases applyOp_courses_cases h with ⟨hn, hc⟩ |
    ⟨sender, name, a, b, hT, hab, hn, hc⟩ |
    ⟨id0, hne0, hfin0, hn, hc⟩ | ⟨id0, hne0, hfin0, hn, hc⟩
  · rw [hc]
    exact hfin
  · rw [hc]
    by_cases hcase : id = S.nextCourseId
    · subst hcase
      rw [hInv.fresh S.nextCourseId le_rfl] at hfin
      exact absurd hfin (by simp [defaultCourse])
    · rw [upd_other _ _ _ _ hcase]
      exact hfin
  · rw [hc]
    by_cases hcase : id = id0
    · subst hcase
      rw [upd_self]
    · rw [upd_other _ _ _ _ hcase]
      exact hfin
  · rw [hc]
    by_cases hcase : id = id0
    · subst hcase
      exact absurd hfin (by simp [hfin0])
    · rw [upd_other _ _ _ _ hcase]
      exact hfin

/-- C4: finalization is a one-way, idempotent-guarded transition.  In any
reachable state: a first successful `finalizeCourse` by the course's own
teacher sets `isFinalized` and forces `isActive := false`; once finalized,
a further `finalizeCourse` by the course teacher reverts with "Course
already finalized" and `toggleCourseStatus` reverts with "Cannot modify
finalized course" regardless of `isActive`; every finalized course is
inactive; and both flags are preserved by every successful call. -/
theorem C4_finalization_one_way (S : CState) (hR : Reachable S) :
    (∀ t id, S.isTeacher t = true → (S.courses id).courseId ≠ 0 →
      (S.courses id).teacher = t → (S.courses id).isFinalized = false →
      ∃ S', finalizeCourse S t id = Except.ok S'
        ∧ (S'.courses id).isFinalized = true
        ∧ (S'.courses id).isActive = false)
    ∧ (∀ t id, S.isTeacher t = true → (S.courses id).courseId ≠ 0 →
      (S.courses id).teacher = t → (S.courses id).isFinalized = true →
      finalizeCourse S t id = Except.error "Course already finalized")
    ∧ (∀ t id, S.isTeacher t = true → (S.courses id).courseId ≠ 0 →
      (S.courses id).teacher = t → (S.courses id).isFinalized = true →
      toggleCourseStatus S t id = Except.error "Cannot modify finalized course")
    ∧ (∀ id, (S.courses id).isFinalized = true → (S.courses id).isActive = false)
    ∧ (∀ op S', applyOp S op = Except.ok S' → ∀ id,
        (S.courses id).isFinalized = true →
        (S'.courses id).isFinalized = true
        ∧ (S'.courses id).isActive = false) := by
  have hInv := reachable_stateInv hR
  refine ⟨fun t id hT hne hteq hfin => ?_, fun t id hT hne hteq hfin => ?_,
    fun t id hT hne hteq hfin => ?_, hInv.finInactive, fun op S' hOk id hfin => ?_⟩
  · have hEq : finalizeCourse S t id = Except.ok { S with courses := upd S.courses id { S.courses id with isFinalized := true, isActive := false } } := by
      unfold finalizeCourse
      rw [if_pos hT, if_pos hne, if_pos hteq, if_pos hfin]
    exact ⟨_, hEq, by simp [upd_self], by simp [upd_self]⟩
  · unfold finalizeCourse
    rw [if_pos hT, if_pos hne, if_pos hteq, if_neg (by simp [hfin])]
  · unfold toggleCourseStatus
    rw [if_pos hT, if_pos hne, if_pos hteq, if_neg (by simp [hfin])]
  · have hkeep := finalized_preserved hInv hOk id hfin
    exact ⟨hkeep, (stateInv_step hInv hOk).finInactive id hkeep⟩

/-- Witness for C4 on the concrete scenario: teacher 1 finalizes course 1
in `sD`; in the finalized state `sE` a second finalization and a toggle are
rejected. -/
theorem C4_finalization_one_way_witness :
    (∃ S', finalizeCourse sD 1 1 = Except.ok S'
      ∧ (S'.courses 1).isFinalized = true ∧ (S'.courses 1).isActive = false)
    ∧ finalizeCourse sE 1 1 = Except.error "Course already finalized"
    ∧ toggleCourseStatus sE 1 1 = Except.error "Cannot modify finalized course" :=
  ⟨(C4_finalization_one_way sD reach_sD).1 1 1 (by decide) (by decide)
      (by decide) (by decide),
   (C4_finalization_one_way sE reach_sE).2.1 1 1 (by decide) (by decide)
      (by decide) (by decide),
   (C4_finalization_one_way sE reach_sE).2.2.1 1 1 (by decide) (by decide)
      (by decide) (by decide)⟩

/-- C6 (amended): in any reachable state every stored course satisfies
`endTime > startTime`, and no successful call ever changes a stored
course's name, teacher, startTime or endTime.  For a teacher caller,
`createCourse` reverts with "Start time must not be too far in the past"
whenever `startTime + 300 ≤ now` (so in particular whenever the start is
more than the 300-second grace window in the past) — this check runs
first — and reverts with "End time must be after start" whenever
`endTime ≤ startTime` and the start-time check passes (`300 ≤ now` and
`now - 300 < startTime`). -/
theorem C6_course_time_invariants (S : CState) (hR : Reachable S) :
    (∀ id, (S.courses id).courseId ≠ 0 →
      (S.courses id).startTime < (S.courses id).endTime)
    ∧ (∀ op S', applyOp S op = Except.ok S' → ∀ id,
        (S.courses id).courseId ≠ 0 →
        (S'.courses id).name = (S.courses id).name
        ∧ (S'.courses id).teacher = (S.courses id).teacher
        ∧ (S'.courses id).startTime = (S.courses id).startTime
        ∧ (S'.courses id).endTime = (S.courses id).endTime)
    ∧ (∀ sender now name startT endT, S.isTeacher sender = true →
        startT + 300 ≤ now →
        createCourse S sender now name startT endT =
          Except.error "Start time must not be too far in the past")
    ∧ (∀ sender now name startT endT, S.isTeacher sender = true →
        300 ≤ now → now - 300 < startT → endT ≤ startT →
        createCourse S sender now name startT endT =
          Except.error "End time must be after start") := by
  have hInv := reachable_stateInv hR
  refine ⟨hInv.times, fun op S' hOk id hne => ?_,
    fun sender now name startT endT hT h1 => ?_,
    fun sender now name startT endT hT h1 h2 h3 => ?_⟩
  · rcases applyOp_courses_cases hOk with ⟨hn, hc⟩ |
      ⟨sender, name, a, b, hT, hab, hn, hc⟩ |
      ⟨id0, hne0, hfin0, hn, hc⟩ | ⟨id0, hne0, hfin0, hn, hc⟩
    · rw [hc]
      exact ⟨rfl, rfl, rfl, rfl⟩
    · rw [hc]
      by_cases hcase : id = S.nextCourseId
      · subst hcase
        rw [hInv.fresh S.nextCourseId le_rfl] at hne
        exact absurd rfl hne
      · rw [upd_other _ _ _ _ hcase]
        exact ⟨rfl, rfl, rfl, rfl⟩
    · rw [hc]
      by_cases hcase : id = id0
      · subst hcase
        rw [upd_self]
        exact ⟨rfl, rfl, rfl, rfl⟩
      · rw [upd_other _ _ _ _ hcase]
        exact ⟨rfl, rfl, rfl, rfl⟩
    · rw [hc]
      by_cases hcase : id = id0
      · subst hcase
        rw [upd_self]
        exact ⟨rfl, rfl, rfl, rfl⟩
      · rw [upd_other _ _ _ _ hcase]
        exact ⟨rfl, rfl, rfl, rfl⟩
  · unfold createCourse
    rw [if_pos hT, if_neg (by omega), if_neg (by omega)]
  · unfold createCourse
    rw [if_pos hT, if_neg (by omega), if_pos (by omega), if_neg (by omega)]

/-- Witness for C6: course 1 of `sD` has `endTime > startTime`; a teacher's
creation attempt at block time 1000 with start 600 is rejected as too far
past, and one with start 800 / end 700 (inside the grace window) is
rejected for the end time. -/
theorem C6_course_time_invariants_witness :
    (sD.courses 1).startTime < (sD.courses 1).endTime
    ∧ createCourse sB 1 1000 "x" 600 700 =
        Except.error "Start time must not be too far in the past"
    ∧ createCourse sB 1 1000 "x" 800 700 =
        Except.error "End time must be after start" :=
  ⟨(C6_course_time_invariants sD reach_sD).1 1 (by decide),
   (C6_course_time_invariants sB reach_sB).2.2.1 1 1000 "x" 600 700
      (by decide) (by decide),
   (C6_course_time_invariants sB reach_sB).2.2.2 1 1000 "x" 800 700
      (by decide) (by decide) (by decide) (by decide)⟩

/-- Counterexample for C6 as stated: with teacher 1 registered, at block
time 1000 a creation with `startTime = 100` and `endTime = 50` violates
both validations; the claim's first clause demands the revert reason
"End time must be after start" whenever `endTime <= startTime`, but the
source checks the grace window first and reverts with "Start time must not
be too far in the past". -/
theorem C6_course_time_invariants_counterexample :
    sB.isTeacher 1 = true ∧ (50 : Nat) ≤ 100
    ∧ createCourse sB 1 1000 "n" 100 50 =
        Except.error "Start time must not be too far in the past"
    ∧ ("Start time must not be too far in the past" : String) ≠
        "End time must be after start" :=
  ⟨by decide, by decide, rfl, by decide⟩

end MaskedAttendance
